import Mathlib

/-!
Shallow embedding of the SRELab SMS/WhatsApp observability service
(Express server in `src/unnamed/part_000`, WhatsApp variant in
`src/api/server.js`, load-test clients in `src/test/loadTest.js`).

Randomness (`Math.random()`) is modelled by explicit rational draws in
`[0,1)` passed as arguments.  Times are rationals (milliseconds).
-/

namespace SRELab

/-- JS truthiness of an optional string body field: `!x` is true when the
field is absent or the empty string. -/
def strFalsy (s : Option String) : Bool := s.getD "" = ""

/-- The shared mutable simulation state: `systemUnderLoad` and
`currentQueueDepth` (module-level globals in the source, initial values
`false` and `50`). -/
structure ChaosState where
  underLoad : Bool
  queueDepth : ℚ
deriving Repr, DecidableEq

/-- Initial state of the globals: `currentQueueDepth = 50`,
`systemUnderLoad = false`. -/
def initialChaosState : ChaosState := { underLoad := false, queueDepth := 50 }

/-- `getResponseTime()`: `Math.random() * 2000 + 500` under load,
`Math.random() * 200 + 50` otherwise; the draw `r` is the value of
`Math.random()`. -/
def getResponseTime (underLoad : Bool) (r : ℚ) : ℚ :=
  if underLoad then r * 2000 + 500 else r * 200 + 50

/-- `shouldSimulateError()`: `Math.random() < 0.5` under load,
`Math.random() < 0.001` otherwise. -/
def shouldSimulateError (underLoad : Bool) (r : ℚ) : Bool :=
  if underLoad then decide (r < 1/2) else decide (r < 1/1000)

/-- The country classification of the success path:
`toNum.startsWith('+1') ? 'US' : toNum.startsWith('+44') ? 'UK' :
 toNum.startsWith('+49') ? 'DE' : 'OTHER'`. -/
def countryOf (toNum : String) : String :=
  if toNum.startsWith "+1" then "US"
  else if toNum.startsWith "+44" then "UK"
  else if toNum.startsWith "+49" then "DE"
  else "OTHER"

/-- JS `Math.round`: round half toward positive infinity. -/
def jsRound (x : ℚ) : ℤ := ⌊x + 1/2⌋

/-- A `POST /sms/send` request body plus the `x-api-key` header. -/
structure SmsRequest where
  toNum : Option String
  text : Option String
  apiKey : Option String
deriving Repr, DecidableEq

/-- Observable outcome of one `POST /sms/send` request: the HTTP status,
the `retryAfter` body field when present, the simulated delay awaited
before responding (`none` when the handler returned without awaiting it),
the value written to the `sms_queue_depth` gauge when written, and the
label pair of the `sms_delivered_total` increment when incremented. -/
structure SmsResponse where
  status : ℕ
  retryAfter : Option ℕ
  delayedMs : Option ℚ
  queueGaugeSet : Option ℤ
  deliveredInc : Option (String × String)
deriving Repr, DecidableEq

/-- The `POST /sms/send` handler.  Checks run in source order: simulated
error, then validation, then rate limit, then the awaited delay, then the
queue fluctuation (`currentQueueDepth += Math.random() * 10 - 5`, clamped
to `≥ 0`), gauge write, and delivery counter increment.  `rTime`, `rErr`
and `rQueue` are the three `Math.random()` draws in call order. -/
def smsSend (st : ChaosState) (req : SmsRequest) (rTime rErr rQueue : ℚ) :
    SmsResponse × ChaosState :=
  let processingTime := getResponseTime st.underLoad rTime
  if shouldSimulateError st.underLoad rErr then
    ({ status := 500, retryAfter := none, delayedMs := none,
       queueGaugeSet := none, deliveredInc := none }, st)
  else if strFalsy req.toNum || strFalsy req.text then
    ({ status := 400, retryAfter := none, delayedMs := none,
       queueGaugeSet := none, deliveredInc := none }, st)
  else if req.apiKey = some "rate-limited-key" then
    ({ status := 429, retryAfter := some 30, delayedMs := none,
       queueGaugeSet := none, deliveredInc := none }, st)
  else
    let q2 := max 0 (st.queueDepth + (rQueue * 10 - 5))
    ({ status := 200, retryAfter := none, delayedMs := some processingTime,
       queueGaugeSet := some (jsRound q2),
       deliveredInc := some (countryOf (req.toNum.getD ""), "delivered") },
     { st with queueDepth := q2 })

/-- The `POST /admin/simulate-load` handler:
`systemUnderLoad = req.body.enabled || false`, responding with the new
flag. -/
def simulateLoad (st : ChaosState) (enabled : Option Bool) : ChaosState × Bool :=
  let v := enabled.getD false
  ({ st with underLoad := v }, v)

/-- The `GET /health` handler: reports `currentQueueDepth` (with a fixed
`healthy` status string). -/
def healthHandler (st : ChaosState) : String × ℚ :=
  ("healthy", st.queueDepth)

/-- Labels `(method, route, status_code)` shared by the traffic counter
and the latency histogram. -/
structure HttpLabels where
  method : String
  route : String
  status : ℕ
deriving Repr, DecidableEq

/-- What the instrumentation middleware records for one finished request:
the `http_request_duration_ms` observation, the `http_requests_total`
increment, and the `http_errors_total` increment with its `error_type`
label (each `none` when not recorded). -/
structure MiddlewareRecord where
  durationObs : Option (HttpLabels × ℚ)
  requestsInc : Option HttpLabels
  errorsInc : Option (HttpLabels × String)
deriving Repr, DecidableEq

/-- The `error_type` classification used in both server variants:
`statusCode >= 500 ? 'server_error' : 'client_error'` (only consulted when
`statusCode >= 400`). -/
def errorType (status : ℕ) : String :=
  if 500 ≤ status then "server_error" else "client_error"

/-- The metrics-collection middleware, at the `finish` event of a
response: skips everything when `req.path === '/metrics'`; otherwise
observes `duration = now - start` into the histogram, increments the
traffic counter with the same labels, and when `statusCode >= 400` also
increments the error counter with the `error_type` label.  `route` stands
for the resolved `req.route?.path || req.path` label value. -/
def metricsMiddleware (method path route : String) (status : ℕ)
    (start finish : ℚ) : MiddlewareRecord :=
  if path = "/metrics" then
    { durationObs := none, requestsInc := none, errorsInc := none }
  else
    let duration := finish - start
    let labels : HttpLabels := { method := method, route := route, status := status }
    { durationObs := some (labels, duration)
      requestsInc := some labels
      errorsInc :=
        if 400 ≤ status then some (labels, errorType status) else none }

/-- What the WhatsApp variant records at the `end` of the upstream
response (`src/api/server.js`): the `interactive_message_sent_total`
increment for 2xx, the `whatsapp_errors_total` increment with its
`error_type` label for `>= 400`, and the duration observation keyed by
status code. -/
structure WhatsappRecord where
  sentInc : Option (String × String)
  errorsInc : Option (String × ℕ)
  durationObs : Option (ℕ × ℚ)
deriving Repr, DecidableEq

/-- The response-end callback of `POST /whatsapp/send-template`. -/
def whatsappOnEnd (platform : String) (statusCode : ℕ)
    (start finish : ℚ) : WhatsappRecord :=
  let duration := finish - start
  { sentInc :=
      if 200 ≤ statusCode ∧ statusCode < 300 then
        some ("interactive", platform)
      else none
    errorsInc :=
      if 400 ≤ statusCode then some (errorType statusCode, statusCode)
      else none
    durationObs := some (statusCode, duration) }

/-- Modelled from the spec: the platform-based variant of
`simulateDeliveryOutcome` is described in the spec but not implemented
under `src/` (only the load-test client `src/test/loadTest.js`, which
sends the `x-platform` header, is present).  Per the spec, delivery fails
deterministically when the platform label equals the disfavored platform
(iOS), incrementing the queue depth by exactly one; any other platform
delivers and leaves the queue depth unchanged. -/
def simulateDeliveryOutcomePlatform (platform : String) (q : ℚ) : Bool × ℚ :=
  if platform = "ios" then (false, q + 1) else (true, q)

/-- One externally triggered operation that can touch the shared state. -/
inductive ApiOp
  | sms (req : SmsRequest) (rTime rErr rQueue : ℚ)
  | admin (enabled : Option Bool)

/-- Apply one operation to the shared state. -/
def applyOp (st : ChaosState) : ApiOp → ChaosState
  | .sms req rTime rErr rQueue => (smsSend st req rTime rErr rQueue).2
  | .admin e => (simulateLoad st e).1

/-- Run a sequence of operations from a starting state. -/
def runOps (st : ChaosState) (ops : List ApiOp) : ChaosState :=
  ops.foldl applyOp st

/-- Range of the simulated latency under load, for a draw in `[0,1)`. -/
theorem getResponseTime_load_range (r : ℚ) (h0 : 0 ≤ r) (h1 : r < 1) :
    500 ≤ getResponseTime true r ∧ getResponseTime true r ≤ 2500 := by
  unfold getResponseTime
  norm_num
  constructor <;> nlinarith

/-- Range of the simulated latency when not under load, for a draw in
`[0,1)`. -/
theorem getResponseTime_normal_range (r : ℚ) (h0 : 0 ≤ r) (h1 : r < 1) :
    50 ≤ getResponseTime false r ∧ getResponseTime false r ≤ 250 := by
  unfold getResponseTime
  norm_num
  constructor <;> nlinarith

/-- C4: for every random draw in `[0,1)`, `getResponseTime` lies in
`[500,2500]` ms when the system is under load and in `[50,250]` ms
otherwise. -/
theorem c4_latency_ranges (r : ℚ) (h0 : 0 ≤ r) (h1 : r < 1) :
    (500 ≤ getResponseTime true r ∧ getResponseTime true r ≤ 2500) ∧
    (50 ≤ getResponseTime false r ∧ getResponseTime false r ≤ 250) :=
  ⟨getResponseTime_load_range r h0 h1, getResponseTime_normal_range r h0 h1⟩

/-- Witness for C4 at the concrete draw `1/2`. -/
theorem c4_latency_ranges_witness :
    (0 : ℚ) ≤ 1/2 ∧ ((1 : ℚ)/2 < 1) ∧
    ((500 ≤ getResponseTime true (1/2) ∧ getResponseTime true (1/2) ≤ 2500) ∧
     (50 ≤ getResponseTime false (1/2) ∧ getResponseTime false (1/2) ≤ 250)) :=
  ⟨by norm_num, by norm_num, c4_latency_ranges (1/2) (by norm_num) (by norm_num)⟩

/-- C8: `shouldSimulateError` returns true exactly when the draw is below
the active threshold: `0.5` under load, `0.001` otherwise. -/
theorem c8_error_thresholds (r : ℚ) :
    (shouldSimulateError true r = true ↔ r < 1/2) ∧
    (shouldSimulateError false r = true ↔ r < 1/1000) := by
  unfold shouldSimulateError
  simp

/-- C3: the middleware records nothing for a `/metrics` request (no
duration observation, no traffic increment, no error increment), while a
finished request to any other path is recorded in the traffic counter and
the latency histogram. -/
theorem c3_metrics_route_excluded (method path route : String) (status : ℕ)
    (start finish : ℚ) (hp : path ≠ "/metrics") :
    metricsMiddleware method "/metrics" route status start finish =
      { durationObs := none, requestsInc := none, errorsInc := none } ∧
    (metricsMiddleware method path route status start finish).requestsInc =
      some { method := method, route := route, status := status } ∧
    (metricsMiddleware method path route status start finish).durationObs =
      some ({ method := method, route := route, status := status },
        finish - start) := by
  unfold metricsMiddleware
  simp [hp]

/-- Witness for C3 at a concrete non-metrics request. -/
theorem c3_metrics_route_excluded_witness :
    ("/health" : String) ≠ "/metrics" ∧
    (metricsMiddleware "GET" "/metrics" "/metrics" 200 0 3 =
      { durationObs := none, requestsInc := none, errorsInc := none } ∧
    (metricsMiddleware "GET" "/health" "/health" 200 0 3).requestsInc =
      some { method := "GET", route := "/health", status := 200 } ∧
    (metricsMiddleware "GET" "/health" "/health" 200 0 3).durationObs =
      some ({ method := "GET", route := "/health", status := 200 }, 3 - 0)) :=
  ⟨by decide,
   c3_metrics_route_excluded "GET" "/health" "/health" 200 0 3 (by decide)⟩

/-- C7: for a finished non-metrics request the middleware observes
`finish - start` into the histogram and increments the traffic counter
with labels `(method, route, status)`; the error counter is incremented
exactly when `status ≥ 400`, with `error_type` equal to `client_error` for
4xx and `server_error` for 5xx; the WhatsApp variant uses the same
classification for its error counter. -/
theorem c7_completion_records (method path route platform : String)
    (status : ℕ) (start finish : ℚ) (hp : path ≠ "/metrics") :
    (metricsMiddleware method path route status start finish).durationObs =
      some ({ method := method, route := route, status := status },
        finish - start) ∧
    (metricsMiddleware method path route status start finish).requestsInc =
      some { method := method, route := route, status := status } ∧
    ((metricsMiddleware method path route status start finish).errorsInc ≠
        none ↔ 400 ≤ status) ∧
    (400 ≤ status →
      (metricsMiddleware method path route status start finish).errorsInc =
        some ({ method := method, route := route, status := status },
          errorType status)) ∧
    (400 ≤ status → status < 500 → errorType status = "client_error") ∧
    (500 ≤ status → errorType status = "server_error") ∧
    (400 ≤ status → (whatsappOnEnd platform status start finish).errorsInc =
        some (errorType status, status)) ∧
    (status < 400 →
      (whatsappOnEnd platform status start finish).errorsInc = none) := by
  unfold metricsMiddleware whatsappOnEnd
  rw [if_neg hp]
  refine ⟨rfl, rfl, ?_, ?_, ?_, ?_, ?_, ?_⟩
  · by_cases h4 : 400 ≤ status <;> simp [h4]
  · intro h4; simp [h4]
  · intro h4 h5; unfold errorType; rw [if_neg (by omega)]
  · intro h5; unfold errorType; rw [if_pos h5]
  · intro h4; simp [h4]
  · intro h4; simp [show ¬ (400 ≤ status) by omega]

/-- Witness for C7 at a concrete finished request with status 503. -/
theorem c7_completion_records_witness :
    ("/sms/send" : String) ≠ "/metrics" ∧
    ((metricsMiddleware "POST" "/sms/send" "/sms/send" 503 10 25).durationObs =
      some ({ method := "POST", route := "/sms/send", status := 503 },
        25 - 10) ∧
    (metricsMiddleware "POST" "/sms/send" "/sms/send" 503 10 25).requestsInc =
      some { method := "POST", route := "/sms/send", status := 503 } ∧
    ((metricsMiddleware "POST" "/sms/send" "/sms/send" 503 10 25).errorsInc ≠
        none ↔ 400 ≤ 503) ∧
    (400 ≤ 503 →
      (metricsMiddleware "POST" "/sms/send" "/sms/send" 503 10 25).errorsInc =
        some ({ method := "POST", route := "/sms/send", status := 503 },
          errorType 503)) ∧
    (400 ≤ 503 → 503 < 500 → errorType 503 = "client_error") ∧
    (500 ≤ 503 → errorType 503 = "server_error") ∧
    (400 ≤ 503 → (whatsappOnEnd "ios" 503 10 25).errorsInc =
        some (errorType 503, 503)) ∧
    (503 < 400 → (whatsappOnEnd "ios" 503 10 25).errorsInc = none)) :=
  ⟨by decide,
   c7_completion_records "POST" "/sms/send" "/sms/send" "ios" 503 10 25
     (by decide)⟩

/-- C5: toggling the load simulation on and then off restores the initial
non-loaded state; the next latency draw then falls in the non-loaded range
`[50,250]` ms; the flag written by the toggle does not depend on the prior
state (no history beyond the explicit flag); and the toggle is idempotent:
applying it twice with the same body equals applying it once. -/
theorem c5_toggle_restores (st st2 : ChaosState) (e : Option Bool) (r : ℚ)
    (h0 : 0 ≤ r) (h1 : r < 1) :
    (simulateLoad (simulateLoad initialChaosState (some true)).1
        (some false)).1 = initialChaosState ∧
    (50 ≤ getResponseTime
        ((simulateLoad (simulateLoad st (some true)).1
          (some false)).1).underLoad r ∧
      getResponseTime
        ((simulateLoad (simulateLoad st (some true)).1
          (some false)).1).underLoad r ≤ 250) ∧
    (simulateLoad st e).1.underLoad = (simulateLoad st2 e).1.underLoad ∧
    simulateLoad (simulateLoad st e).1 e = simulateLoad st e :=
  ⟨rfl, getResponseTime_normal_range r h0 h1, rfl, rfl⟩

/-- Witness for C5 at a concrete state and draw. -/
theorem c5_toggle_restores_witness :
    (0 : ℚ) ≤ 1/2 ∧ ((1 : ℚ)/2 < 1) ∧
    ((simulateLoad (simulateLoad initialChaosState (some true)).1
        (some false)).1 = initialChaosState ∧
    (50 ≤ getResponseTime
        ((simulateLoad
          (simulateLoad { underLoad := true, queueDepth := 7 } (some true)).1
          (some false)).1).underLoad (1/2) ∧
      getResponseTime
        ((simulateLoad
          (simulateLoad { underLoad := true, queueDepth := 7 } (some true)).1
          (some false)).1).underLoad (1/2) ≤ 250) ∧
    (simulateLoad { underLoad := true, queueDepth := 7 } (some true)).1.underLoad =
      (simulateLoad initialChaosState (some true)).1.underLoad ∧
    simulateLoad
        (simulateLoad { underLoad := true, queueDepth := 7 } (some true)).1
        (some true) =
      simulateLoad { underLoad := true, queueDepth := 7 } (some true)) :=
  ⟨by norm_num, by norm_num,
   c5_toggle_restores { underLoad := true, queueDepth := 7 } initialChaosState
     (some true) (1/2) (by norm_num) (by norm_num)⟩

/-- C9: under the spec-modelled platform-based policy, the disfavored
platform (iOS) always yields `delivered = false` and increments the queue
depth by exactly one; any other platform yields `delivered = true` and
leaves the queue depth unchanged. -/
theorem c9_platform_policy (platform : String) (q : ℚ)
    (hp : platform ≠ "ios") :
    (simulateDeliveryOutcomePlatform "ios" q).1 = false ∧
    (simulateDeliveryOutcomePlatform "ios" q).2 = q + 1 ∧
    (simulateDeliveryOutcomePlatform platform q).1 = true ∧
    (simulateDeliveryOutcomePlatform platform q).2 = q := by
  unfold simulateDeliveryOutcomePlatform
  simp [hp]

/-- Witness for C9 at platform `android` and queue depth 50. -/
theorem c9_platform_policy_witness :
    ("android" : String) ≠ "ios" ∧
    ((simulateDeliveryOutcomePlatform "ios" 50).1 = false ∧
     (simulateDeliveryOutcomePlatform "ios" 50).2 = 50 + 1 ∧
     (simulateDeliveryOutcomePlatform "android" 50).1 = true ∧
     (simulateDeliveryOutcomePlatform "android" 50).2 = 50) :=
  ⟨by decide, c9_platform_policy "android" 50 (by decide)⟩

/-- C10: every `/sms/send` request that ends in an error response (400,
429 or 500) leaves the shared state unchanged, writes nothing to the
`sms_queue_depth` gauge and increments no `sms_delivered_total` series. -/
theorem c10_error_paths_leave_state (st : ChaosState) (req : SmsRequest)
    (rTime rErr rQueue : ℚ)
    (h : (smsSend st req rTime rErr rQueue).1.status = 400 ∨
         (smsSend st req rTime rErr rQueue).1.status = 429 ∨
         (smsSend st req rTime rErr rQueue).1.status = 500) :
    (smsSend st req rTime rErr rQueue).2 = st ∧
    (smsSend st req rTime rErr rQueue).1.queueGaugeSet = none ∧
    (smsSend st req rTime rErr rQueue).1.deliveredInc = none := by
  unfold smsSend at h ⊢
  split_ifs at h ⊢ <;> simp_all

/-- Witness for C10 at a concrete request hitting the validation branch. -/
theorem c10_error_paths_leave_state_witness :
    ((smsSend initialChaosState
        { toNum := none, text := some "hi", apiKey := none }
        (1/2) (1/2) (1/2)).1.status = 400 ∨
     (smsSend initialChaosState
        { toNum := none, text := some "hi", apiKey := none }
        (1/2) (1/2) (1/2)).1.status = 429 ∨
     (smsSend initialChaosState
        { toNum := none, text := some "hi", apiKey := none }
        (1/2) (1/2) (1/2)).1.status = 500) ∧
    ((smsSend initialChaosState
        { toNum := none, text := some "hi", apiKey := none }
        (1/2) (1/2) (1/2)).2 = initialChaosState ∧
     (smsSend initialChaosState
        { toNum := none, text := some "hi", apiKey := none }
        (1/2) (1/2) (1/2)).1.queueGaugeSet = none ∧
     (smsSend initialChaosState
        { toNum := none, text := some "hi", apiKey := none }
        (1/2) (1/2) (1/2)).1.deliveredInc = none) :=
  ⟨Or.inl (by norm_num [smsSend, shouldSimulateError, strFalsy,
     initialChaosState]),
   c10_error_paths_leave_state initialChaosState
     { toNum := none, text := some "hi", apiKey := none }
     (1/2) (1/2) (1/2) (Or.inl (by norm_num [smsSend, shouldSimulateError,
       strFalsy, initialChaosState]))⟩

/-- `Math.round` of a non-negative rational is non-negative. -/
theorem jsRound_nonneg (x : ℚ) (h : 0 ≤ x) : 0 ≤ jsRound x := by
  unfold jsRound
  rw [Int.le_floor]
  push_cast
  linarith

/-- One `/sms/send` request preserves non-negativity of the queue depth. -/
theorem smsSend_queueDepth_nonneg (st : ChaosState) (req : SmsRequest)
    (rTime rErr rQueue : ℚ) (h : 0 ≤ st.queueDepth) :
    0 ≤ (smsSend st req rTime rErr rQueue).2.queueDepth := by
  unfold smsSend
  split_ifs
  · exact h
  · exact h
  · exact h
  · exact le_max_left _ _

/-- Every operation preserves non-negativity of the queue depth. -/
theorem applyOp_queueDepth_nonneg (st : ChaosState) (op : ApiOp)
    (h : 0 ≤ st.queueDepth) : 0 ≤ (applyOp st op).queueDepth := by
  cases op with
  | sms req rTime rErr rQueue =>
      exact smsSend_queueDepth_nonneg st req rTime rErr rQueue h
  | admin e => exact h

/-- A run of operations preserves non-negativity of the queue depth. -/
theorem runOps_queueDepth_nonneg (ops : List ApiOp) (st : ChaosState)
    (h : 0 ≤ st.queueDepth) : 0 ≤ (runOps st ops).queueDepth := by
  induction ops generalizing st with
  | nil => exact h
  | cons op rest ih => exact ih _ (applyOp_queueDepth_nonneg st op h)

/-- C6: starting from the initial state, after any sequence of requests
the queue depth is non-negative; the value reported by `GET /health` is
non-negative; a single `/sms/send` from any non-negative state keeps the
depth non-negative; and every value written to the `sms_queue_depth`
gauge is non-negative. -/
theorem c6_queue_never_negative (ops : List ApiOp) (st : ChaosState)
    (req : SmsRequest) (rTime rErr rQueue : ℚ) (h : 0 ≤ st.queueDepth) :
    0 ≤ (runOps initialChaosState ops).queueDepth ∧
    0 ≤ (healthHandler (runOps initialChaosState ops)).2 ∧
    0 ≤ (smsSend st req rTime rErr rQueue).2.queueDepth ∧
    (∀ v, (smsSend st req rTime rErr rQueue).1.queueGaugeSet = some v →
      0 ≤ v) := by
  refine ⟨runOps_queueDepth_nonneg ops initialChaosState
      (by norm_num [initialChaosState]),
    runOps_queueDepth_nonneg ops initialChaosState
      (by norm_num [initialChaosState]),
    smsSend_queueDepth_nonneg st req rTime rErr rQueue h, ?_⟩
  intro v hv
  unfold smsSend at hv
  split_ifs at hv
  simp at hv
  exact hv ▸ jsRound_nonneg _ le_sup_left

/-- Witness for C6 at a concrete run and request. -/
theorem c6_queue_never_negative_witness :
    (0 : ℚ) ≤ (initialChaosState).queueDepth ∧
    (0 ≤ (runOps initialChaosState
        [ApiOp.admin (some true),
         ApiOp.sms ⟨some "+15550001111", some "hi", none⟩
           (1/2) (3/4) (1/2)]).queueDepth ∧
     0 ≤ (healthHandler (runOps initialChaosState
        [ApiOp.admin (some true),
         ApiOp.sms ⟨some "+15550001111", some "hi", none⟩
           (1/2) (3/4) (1/2)])).2 ∧
     0 ≤ (smsSend initialChaosState
        { toNum := some "+15550001111", text := some "hi", apiKey := none }
        (1/2) (3/4) (1/2)).2.queueDepth ∧
     (∀ v, (smsSend initialChaosState
        { toNum := some "+15550001111", text := some "hi", apiKey := none }
        (1/2) (3/4) (1/2)).1.queueGaugeSet = some v → 0 ≤ v)) :=
  ⟨by norm_num [initialChaosState],
   c6_queue_never_negative
     [ApiOp.admin (some true),
      ApiOp.sms ⟨some "+15550001111", some "hi", none⟩ (1/2) (3/4) (1/2)]
     initialChaosState
     { toNum := some "+15550001111", text := some "hi", apiKey := none }
     (1/2) (3/4) (1/2) (by norm_num [initialChaosState])⟩

/-- C1 as stated is false: the simulated-error check runs before
validation in the handler, so under load with an error draw of `1/4` a
request missing `to` is answered 500, not 400. -/
theorem c1_counterexample :
    (smsSend { underLoad := true, queueDepth := 50 }
      { toNum := none, text := some "hello", apiKey := none }
      (1/2) (1/4) (1/2)).1.status = 500 ∧
    ¬ (smsSend { underLoad := true, queueDepth := 50 }
      { toNum := none, text := some "hello", apiKey := none }
      (1/2) (1/4) (1/2)).1.status = 400 := by
  constructor
  · norm_num [smsSend, shouldSimulateError]
  · norm_num [smsSend, shouldSimulateError]

/-- C1 (amended): whenever the simulated-error draw does not fire, a
`/sms/send` request whose `to` or `text` field is missing (falsy) is
answered HTTP 400 before the simulated delay is awaited, for either
chaos state, and the shared state is unchanged. -/
theorem c1_missing_fields_yield_400 (st : ChaosState) (req : SmsRequest)
    (rTime rErr rQueue : ℚ)
    (hErr : shouldSimulateError st.underLoad rErr = false)
    (hMiss : strFalsy req.toNum = true ∨ strFalsy req.text = true) :
    (smsSend st req rTime rErr rQueue).1.status = 400 ∧
    (smsSend st req rTime rErr rQueue).1.delayedMs = none ∧
    (smsSend st req rTime rErr rQueue).2 = st := by
  have hor : (strFalsy req.toNum || strFalsy req.text) = true := by
    rcases hMiss with h | h <;> simp [h]
  unfold smsSend
  simp [hErr, hor]

/-- Witness for the amended C1 at a concrete request missing `to`. -/
theorem c1_missing_fields_yield_400_witness :
    shouldSimulateError initialChaosState.underLoad (1/2) = false ∧
    (strFalsy (none : Option String) = true ∨
      strFalsy (some "hi") = true) ∧
    ((smsSend initialChaosState
        { toNum := none, text := some "hi", apiKey := none }
        (1/2) (1/2) (1/2)).1.status = 400 ∧
     (smsSend initialChaosState
        { toNum := none, text := some "hi", apiKey := none }
        (1/2) (1/2) (1/2)).1.delayedMs = none ∧
     (smsSend initialChaosState
        { toNum := none, text := some "hi", apiKey := none }
        (1/2) (1/2) (1/2)).2 = initialChaosState) :=
  ⟨by norm_num [shouldSimulateError, initialChaosState],
   Or.inl (by norm_num [strFalsy]),
   c1_missing_fields_yield_400 initialChaosState
     { toNum := none, text := some "hi", apiKey := none } (1/2) (1/2) (1/2)
     (by norm_num [shouldSimulateError, initialChaosState])
     (Or.inl (by norm_num [strFalsy]))⟩

/-- C2 as stated is false: the simulated-error check and the validation
check both run before the rate-limit check, so a request carrying the
sentinel key is answered 500 under load when the error draw fires, and
400 when `to` is missing. -/
theorem c2_counterexample :
    (smsSend { underLoad := true, queueDepth := 50 }
      { toNum := some "+15550001111", text := some "hello",
        apiKey := some "rate-limited-key" }
      (1/2) (1/4) (1/2)).1.status = 500 ∧
    (smsSend { underLoad := false, queueDepth := 50 }
      { toNum := none, text := some "hello",
        apiKey := some "rate-limited-key" }
      (1/2) (1/2) (1/2)).1.status = 400 := by
  constructor
  · norm_num [smsSend, shouldSimulateError]
  · norm_num [smsSend, shouldSimulateError, strFalsy]

/-- C2 (amended): whenever the simulated-error draw does not fire and the
`to` and `text` fields are present (non-falsy), a request carrying the
sentinel key `rate-limited-key` is answered HTTP 429 with
`retryAfter = 30` before the simulated delay is awaited, for either chaos
state, and the shared state is unchanged. -/
theorem c2_rate_limit_yields_429 (st : ChaosState) (req : SmsRequest)
    (rTime rErr rQueue : ℚ)
    (hErr : shouldSimulateError st.underLoad rErr = false)
    (hTo : strFalsy req.toNum = false) (hText : strFalsy req.text = false)
    (hKey : req.apiKey = some "rate-limited-key") :
    (smsSend st req rTime rErr rQueue).1.status = 429 ∧
    (smsSend st req rTime rErr rQueue).1.retryAfter = some 30 ∧
    (smsSend st req rTime rErr rQueue).1.delayedMs = none ∧
    (smsSend st req rTime rErr rQueue).2 = st := by
  unfold smsSend
  simp [hErr, hTo, hText, hKey]

/-- Witness for the amended C2 at a concrete sentinel-key request under
load with a non-firing error draw. -/
theorem c2_rate_limit_yields_429_witness :
    shouldSimulateError
      (ChaosState.mk true 50).underLoad (3/4) = false ∧
    strFalsy (some "+15550001111") = false ∧
    strFalsy (some "hello") = false ∧
    ((smsSend { underLoad := true, queueDepth := 50 }
        { toNum := some "+15550001111", text := some "hello",
          apiKey := some "rate-limited-key" }
        (1/2) (3/4) (1/2)).1.status = 429 ∧
     (smsSend { underLoad := true, queueDepth := 50 }
        { toNum := some "+15550001111", text := some "hello",
          apiKey := some "rate-limited-key" }
        (1/2) (3/4) (1/2)).1.retryAfter = some 30 ∧
     (smsSend { underLoad := true, queueDepth := 50 }
        { toNum := some "+15550001111", text := some "hello",
          apiKey := some "rate-limited-key" }
        (1/2) (3/4) (1/2)).1.delayedMs = none ∧
     (smsSend { underLoad := true, queueDepth := 50 }
        { toNum := some "+15550001111", text := some "hello",
          apiKey := some "rate-limited-key" }
        (1/2) (3/4) (1/2)).2 = { underLoad := true, queueDepth := 50 }) :=
  ⟨by norm_num [shouldSimulateError],
   by decide,
   by decide,
   c2_rate_limit_yields_429 { underLoad := true, queueDepth := 50 }
     { toNum := some "+15550001111", text := some "hello",
       apiKey := some "rate-limited-key" }
     (1/2) (3/4) (1/2)
     (by norm_num [shouldSimulateError])
     (by decide) (by decide) rfl⟩

end SRELab
